import Mathlib

/-!
Verification development for the perplexity-openrouter-mcp server.

Shallow embedding of the request-handling pipeline:
* `format_citations` embeds `PerplexitySearch._format_citations`
  (src/perplexity_search.py, lines 30-66);
* `chat_completion`, `get_client_step`, `clientClose` embed
  `OpenRouterClient` (src/openrouter_client.py);
* `queryModel` and the four tool methods embed `PerplexitySearch._query`
  and its public wrappers (src/perplexity_search.py, lines 68-141);
* `sanitize` and `bearerOnCallTool` embed the two middlewares of
  src/mcp_tools.py;
* `runRace` is a small-step interleaving model of concurrent first use of
  `OpenRouterClient._get_client`.

Python's dynamic values are modelled by `PyVal`; `None` is `PyVal.pynone`,
strings are `PyVal.pystr`, dicts are association lists tagged `pydict`,
and arbitrary attribute-bearing objects are association lists tagged
`pyobj` (attribute name to value, looked up by `getattr`).
-/

/-- Dynamic Python value, as far as the annotation-handling code inspects it:
`None`, a string, a dict (association list, first binding wins, insertion
order preserved), or an object with named attributes. -/
inductive PyVal where
  | pynone : PyVal
  | pystr : String → PyVal
  | pydict : List (String × PyVal) → PyVal
  | pyobj : List (String × PyVal) → PyVal

/-- `isinstance(v, dict)`. -/
def PyVal.isDict : PyVal → Bool
  | .pydict _ => true
  | _ => false

/-- Python truthiness of the values the code tests with `if`:
`None` is falsy, a string is truthy iff non-empty, a dict is truthy iff
non-empty, and a plain object is truthy. -/
def PyVal.truthy : PyVal → Bool
  | .pynone => false
  | .pystr s => !s.isEmpty
  | .pydict entries => !entries.isEmpty
  | .pyobj _ => true

/-- `v.get(key, default)` on a dict; any non-dict value has no `get`
entries, but the source only calls `get` after an `isinstance(v, dict)`
check, so the non-dict branch is unreachable there. -/
def pyGet (v : PyVal) (key : String) (default : PyVal) : PyVal :=
  match v with
  | .pydict entries => (entries.lookup key).getD default
  | _ => default

/-- `getattr(v, key, default)`: only `pyobj` values carry attributes the
source reads; dicts, strings and `None` lack attributes named `type`,
`url_citation`, `url` or `title`, so `getattr` returns the default. -/
def pyGetAttr (v : PyVal) (key : String) (default : PyVal) : PyVal :=
  match v with
  | .pyobj attrs => (attrs.lookup key).getD default
  | _ => default

/-- Python `x == "url_citation"` where `x` is an arbitrary dynamic value:
true exactly on the equal string. -/
def isUrlCitationType : PyVal → Bool
  | .pystr s => s == "url_citation"
  | _ => false

/-- One extracted source entry, the dict `{"url": url, "title": title}`
appended by `_format_citations`; both values are the raw extracted
`PyVal`s. -/
structure Citation where
  url : PyVal
  title : PyVal

/-- Body of one iteration of the loop in `_format_citations`
(src/perplexity_search.py, lines 45-64): returns the appended source
entry, or `none` when the record contributes nothing. -/
def extractCitation (ann : PyVal) : Option Citation :=
  let ann_type := if ann.isDict then pyGet ann "type" .pynone
                  else pyGetAttr ann "type" .pynone
  let url_citation := if ann.isDict then pyGet ann "url_citation" (.pydict [])
                      else pyGetAttr ann "url_citation" (.pydict [])
  if isUrlCitationType ann_type then
    let url := if url_citation.isDict then pyGet url_citation "url" (.pystr "")
               else pyGetAttr url_citation "url" (.pystr "")
    let title := if url_citation.isDict then pyGet url_citation "title" url
                 else pyGetAttr url_citation "title" url
    if url.truthy then some ⟨url, title⟩ else none
  else none

/-- `PerplexitySearch._format_citations(content, annotations)`
(src/perplexity_search.py, lines 30-66). `annotations` is `list | None`;
`if not annotations` catches both `None` and the empty list. The
`content` argument is kept for interface symmetry and never inspected. -/
def format_citations (content : String) (annotations : Option (List PyVal)) :
    List Citation :=
  match annotations with
  | none => []
  | some l => if l.isEmpty then [] else l.filterMap extractCitation

/-- Spec-side: the record's discriminant type field, accepting either
shape. -/
def annDiscriminant (ann : PyVal) : PyVal :=
  if ann.isDict then pyGet ann "type" .pynone else pyGetAttr ann "type" .pynone

/-- Spec-side: the nested `url_citation` record, accepting either shape. -/
def annNested (ann : PyVal) : PyVal :=
  if ann.isDict then pyGet ann "url_citation" (.pydict [])
  else pyGetAttr ann "url_citation" (.pydict [])

/-- Spec-side: the resolved url of a record (empty string when absent). -/
def resolvedUrl (ann : PyVal) : PyVal :=
  let nested := annNested ann
  if nested.isDict then pyGet nested "url" (.pystr "")
  else pyGetAttr nested "url" (.pystr "")

/-- Spec-side: the resolved title of a record, falling back to the
resolved url when the `title` key or attribute is absent. -/
def resolvedTitle (ann : PyVal) : PyVal :=
  let nested := annNested ann
  if nested.isDict then pyGet nested "title" (resolvedUrl ann)
  else pyGetAttr nested "title" (resolvedUrl ann)

/-- Spec-side: a record yields a citation iff its discriminant equals the
citation type and its resolved url is non-empty (truthy). -/
def isCitationRecord (ann : PyVal) : Bool :=
  isUrlCitationType (annDiscriminant ann) && (resolvedUrl ann).truthy

/-- Per-record agreement of the loop body with the spec-side
characterisation. -/
theorem extractCitation_eq (ann : PyVal) :
    extractCitation ann =
      if isCitationRecord ann then some ⟨resolvedUrl ann, resolvedTitle ann⟩
      else none := by
  simp only [extractCitation, isCitationRecord, annDiscriminant, annNested,
    resolvedUrl, resolvedTitle, Bool.and_eq_true]
  split_ifs <;> simp_all

/-- Truthiness of a Python `str | None` value (`None` and `""` are falsy),
as tested by `api_key or ...`, `if not expected_token`, and
`if system_prompt`. -/
def strTruthy : Option String → Bool
  | none => false
  | some s => !s.isEmpty

/-- src/openrouter_client.py line 10. -/
def OPENROUTER_BASE_URL : String := "https://openrouter.ai/api/v1"

/-- The `AsyncOpenAI(base_url=..., api_key=...)` connection object created
by `_get_client`. -/
structure Conn where
  base_url : String
  api_key : String
deriving DecidableEq

/-- Mutable state of one `OpenRouterClient` handle: the configured key and
the `_client` slot (`None` until first use, `None` again after `close`). -/
structure ClientState where
  api_key : String
  client_slot : Option Conn
deriving DecidableEq

/-- Python exceptions the embedded client code can raise. -/
inductive PyErr where
  | valueError : String → PyErr
  | indexError : PyErr
deriving DecidableEq

/-- `OpenRouterClient.__init__(api_key)` (src/openrouter_client.py, lines
18-35): `self.api_key = api_key or os.getenv("OPENROUTER_API_KEY")`, then
`ValueError` if the result is falsy. `envApiKey` is the
`OPENROUTER_API_KEY` environment value. -/
def clientInit (api_key : Option String) (envApiKey : Option String) :
    Except PyErr ClientState :=
  let key := if strTruthy api_key then api_key else envApiKey
  if strTruthy key then
    .ok { api_key := key.getD "", client_slot := none }
  else
    .error (.valueError
      "OpenRouter API key not configured. Set OPENROUTER_API_KEY environment variable.")

/-- `OpenRouterClient._validate_api_key` (src/openrouter_client.py, lines
37-47): one GET to the auth endpoint; `validateStatus` is the HTTP status
the endpoint answers; non-200 raises `ValueError`. -/
def validate_api_key (validateStatus : Nat) : Except PyErr Unit :=
  if validateStatus ≠ 200 then
    .error (.valueError
      ("Invalid OpenRouter API key (status " ++ toString validateStatus ++ ")"))
  else .ok ()

/-- `OpenRouterClient._get_client` (src/openrouter_client.py, lines 49-57):
when the `_client` slot is `None`, validate the key once and create the
`AsyncOpenAI` connection; otherwise return the stored connection. Returns
the connection together with the updated handle state. -/
def get_client_step (validateStatus : Nat) (st : ClientState) :
    Except PyErr (Conn × ClientState) :=
  match st.client_slot with
  | some c => .ok (c, st)
  | none =>
    match validate_api_key validateStatus with
    | .error e => .error e
    | .ok _ =>
      let c : Conn := { base_url := OPENROUTER_BASE_URL, api_key := st.api_key }
      .ok (c, { st with client_slot := some c })

/-- One chat message as built by `chat_completion` (a
`{"role": ..., "content": ...}` dict). -/
structure ChatMessage where
  role : String
  content : String
deriving DecidableEq

/-- The message list built by `chat_completion` (src/openrouter_client.py,
lines 78-81): `if system_prompt:` appends the system message first (so a
`None` or empty system prompt adds nothing), then the user prompt. -/
def buildMessages (prompt : String) (system_prompt : Option String) :
    List ChatMessage :=
  let messages : List ChatMessage := []
  let messages := if strTruthy system_prompt then
      messages ++ [{ role := "system", content := system_prompt.getD "" }]
    else messages
  messages ++ [{ role := "user", content := prompt }]

/-- `choice.message` of the upstream response: `content` may be `None`,
and the `annotations` attribute may be missing entirely (outer `none`,
`hasattr` false), present with value `None` (inner `none`), or present
with a list of raw records. -/
structure RawMessage where
  content : Option String
  annotations_attr : Option (Option (List PyVal))

/-- One entry of `response.choices`. -/
structure RawChoice where
  message : RawMessage

/-- `response.usage` (when present). -/
structure RawUsage where
  total_tokens : Nat

/-- The upstream chat-completion response as far as the client reads it. -/
structure RawResponse where
  choices : List RawChoice
  model : String
  usage : Option RawUsage

/-- The dict returned by `chat_completion` (src/openrouter_client.py,
lines 95-100). The `annotations` key holds `None` (modelled `none`) when
the message lacks the attribute or the attribute is `None`. -/
structure CompletionOut where
  content : String
  model : String
  tokens : Nat
  annotations_val : Option (List PyVal)

/-- `OpenRouterClient.chat_completion` (src/openrouter_client.py, lines
59-100). `api model messages` stands for the value
`client.chat.completions.create(model=model, messages=messages)` returns;
`validateStatus` parameterises the auth endpoint's answer during lazy
initialization. `choices[0]` raises `IndexError` on an empty list.
Returns the result dict together with the updated handle state. -/
def chat_completion (validateStatus : Nat)
    (api : String → List ChatMessage → RawResponse) (st : ClientState)
    (prompt : String) (model : String) (system_prompt : Option String) :
    Except PyErr (CompletionOut × ClientState) :=
  match get_client_step validateStatus st with
  | .error e => .error e
  | .ok (_, st') =>
    let messages := buildMessages prompt system_prompt
    let response := api model messages
    match response.choices.head? with
    | none => .error .indexError
    | some choice =>
      let annotations_v : Option (List PyVal) :=
        match choice.message.annotations_attr with
        | none => none
        | some v => v
      .ok ({ content := choice.message.content.getD "",
             model := response.model,
             tokens := (response.usage.map RawUsage.total_tokens).getD 0,
             annotations_val := annotations_v }, st')

/-- `OpenRouterClient.close` (src/openrouter_client.py, lines 102-106):
when the slot holds a connection, close it (the boolean records that the
underlying `AsyncOpenAI.close()` ran) and reset the slot to `None`;
otherwise do nothing. Total: no raise path exists. -/
def clientClose (st : ClientState) : ClientState × Bool :=
  match st.client_slot with
  | none => (st, false)
  | some _ => ({ st with client_slot := none }, true)

/-- Fixed model bindings (src/perplexity_search.py, lines 16-19). -/
def MODEL_SEARCH : String := "perplexity/sonar"

/-- src/perplexity_search.py line 17. -/
def MODEL_ASK : String := "perplexity/sonar-pro"

/-- src/perplexity_search.py line 18. -/
def MODEL_RESEARCH : String := "perplexity/sonar-deep-research"

/-- src/perplexity_search.py line 19. -/
def MODEL_REASON : String := "perplexity/sonar-reasoning-pro"

/-- The `{"answer": ..., "sources": ...}` dict produced by
`PerplexitySearch._query`. -/
structure ToolResult where
  answer : String
  sources : List Citation

/-- `PerplexitySearch._query(query, model)` (src/perplexity_search.py,
lines 68-89): one `chat_completion` call, then `_format_citations` on the
response's content and annotations, composed into the answer+sources
dict. Failures of the client propagate unchanged. -/
def queryModel (validateStatus : Nat)
    (api : String → List ChatMessage → RawResponse) (st : ClientState)
    (query : String) (model : String) :
    Except PyErr (ToolResult × ClientState) :=
  match chat_completion validateStatus api st query model none with
  | .error e => .error e
  | .ok (response, st') =>
    let sources := format_citations response.content response.annotations_val
    .ok ({ answer := response.content, sources := sources }, st')

/-- `PerplexitySearch.perplexity_search` (src/perplexity_search.py,
lines 91-102). -/
def perplexitySearchOp (validateStatus : Nat)
    (api : String → List ChatMessage → RawResponse) (st : ClientState)
    (query : String) : Except PyErr (ToolResult × ClientState) :=
  queryModel validateStatus api st query MODEL_SEARCH

/-- `PerplexitySearch.perplexity_ask` (src/perplexity_search.py,
lines 104-115). -/
def perplexityAskOp (validateStatus : Nat)
    (api : String → List ChatMessage → RawResponse) (st : ClientState)
    (query : String) : Except PyErr (ToolResult × ClientState) :=
  queryModel validateStatus api st query MODEL_ASK

/-- `PerplexitySearch.perplexity_research` (src/perplexity_search.py,
lines 117-128). -/
def perplexityResearchOp (validateStatus : Nat)
    (api : String → List ChatMessage → RawResponse) (st : ClientState)
    (query : String) : Except PyErr (ToolResult × ClientState) :=
  queryModel validateStatus api st query MODEL_RESEARCH

/-- `PerplexitySearch.perplexity_reason` (src/perplexity_search.py,
lines 130-141). -/
def perplexityReasonOp (validateStatus : Nat)
    (api : String → List ChatMessage → RawResponse) (st : ClientState)
    (query : String) : Except PyErr (ToolResult × ClientState) :=
  queryModel validateStatus api st query MODEL_REASON

/-- `PerplexitySearch.close` (src/perplexity_search.py, lines 143-145):
delegates to the client's `close`. -/
def searchClose (st : ClientState) : ClientState × Bool :=
  clientClose st

/-- A registered FastMCP tool, as far as `ArgumentSanitizerMiddleware`
reads it: its `parameters` JSON schema, a dict. -/
structure McpTool where
  parameters : List (String × PyVal)

/-- `mcp_types.CallToolRequestParams`: tool name plus the optional
argument dict. -/
structure ToolMsg where
  name : String
  arguments : Option (List (String × PyVal))

/-- `dict.keys()` of the value stored under `"properties"` in the schema;
published FastMCP schemas always store a dict there (the middleware's
`.get("properties", {})` default is the empty dict). -/
def schemaKeys : PyVal → List String
  | .pydict entries => entries.map Prod.fst
  | _ => []

/-- `ArgumentSanitizerMiddleware.on_call_tool` (src/mcp_tools.py, lines
55-73), up to the final `call_next`: the transformed message it forwards.
`tools` is the registry `mcp._tool_manager.get_tools()` returns. When the
tool is found and the (`or {}`-defaulted) argument dict is non-empty, the
arguments are filtered to the keys of the schema's `properties` dict and a
fresh message is forwarded; otherwise the original message is forwarded.
Total: no raise path exists. -/
def sanitize (tools : List (String × McpTool)) (msg : ToolMsg) : ToolMsg :=
  let args := msg.arguments.getD []
  match tools.lookup msg.name with
  | none => msg
  | some tool =>
    if args.isEmpty then msg
    else
      let valid_params := schemaKeys (pyGet (.pydict tool.parameters) "properties" (.pydict []))
      let cleaned_args := args.filter (fun kv => valid_params.contains kv.1)
      { name := msg.name, arguments := some cleaned_args }

/-- Python `s.startswith(p)`: `p`'s character sequence is a prefix of
`s`'s. -/
def pyStartsWith (s p : String) : Bool :=
  p.data.isPrefixOf s.data

/-- The `ToolError` failures raised by `BearerAuthMiddleware`. -/
inductive ToolFailure where
  | toolError : String → ToolFailure
deriving DecidableEq

/-- A `ToolError` whose message marks an authentication failure
(`AuthenticationError` class in the spec's taxonomy). -/
def isAuthFailure : ToolFailure → Bool
  | .toolError m => pyStartsWith m "Unauthorized"

/-- A `ToolError` whose message marks a server-configuration failure
(`ConfigurationError` class in the spec's taxonomy). -/
def isConfigFailure : ToolFailure → Bool
  | .toolError m => pyStartsWith m "Server misconfigured"

/-- `BearerAuthMiddleware.on_call_tool` (src/mcp_tools.py, lines 78-93).
`headers` is what `get_http_headers()` returns (lower-cased header names);
`envBearerToken` is the `MCP_BEARER_TOKEN` environment value; `ctx` is the
middleware context and `callNext` the rest of the chain. Checks run in
source order: missing expected token, missing `Bearer ` prefix (the
absent-header case reads as `""`), then exact token comparison against
`auth_header[7:]`; on success the unchanged context is forwarded. -/
def bearerOnCallTool {α β : Type} (headers : List (String × String))
    (envBearerToken : Option String) (ctx : α)
    (callNext : α → Except ToolFailure β) : Except ToolFailure β :=
  let auth_header := (headers.lookup "authorization").getD ""
  if !strTruthy envBearerToken then
    .error (.toolError "Server misconfigured: MCP_BEARER_TOKEN not set")
  else if !pyStartsWith auth_header "Bearer " then
    .error (.toolError "Unauthorized: Missing Bearer token")
  else
    let token := auth_header.drop 7
    if token ≠ envBearerToken.getD "" then
      .error (.toolError "Unauthorized: Invalid token")
    else callNext ctx

/-- The server's environment configuration (read by `os.getenv`). -/
structure ServerEnv where
  openrouterApiKey : Option String
  mcpBearerToken : Option String

/-- The `lifespan` startup step (src/mcp_tools.py, lines 28-36):
`_search = PerplexitySearch()` constructs the client with no explicit key,
reading only `OPENROUTER_API_KEY`; `MCP_BEARER_TOKEN` is not consulted at
startup. -/
def lifespanStartup (env : ServerEnv) : Except PyErr ClientState :=
  clientInit none env.openrouterApiKey

/-- The `perplexity_search` tool wrapper (src/mcp_tools.py, lines
100-114): one line forwarding to `PerplexitySearch.perplexity_search` and
returning its value unchanged. -/
def toolPerplexitySearch (validateStatus : Nat)
    (api : String → List ChatMessage → RawResponse) (st : ClientState)
    (query : String) : Except PyErr (ToolResult × ClientState) :=
  perplexitySearchOp validateStatus api st query

/-- The `perplexity_ask` tool wrapper (src/mcp_tools.py, lines 116-130). -/
def toolPerplexityAsk (validateStatus : Nat)
    (api : String → List ChatMessage → RawResponse) (st : ClientState)
    (query : String) : Except PyErr (ToolResult × ClientState) :=
  perplexityAskOp validateStatus api st query

/-- The `perplexity_research` tool wrapper (src/mcp_tools.py, lines
132-146). -/
def toolPerplexityResearch (validateStatus : Nat)
    (api : String → List ChatMessage → RawResponse) (st : ClientState)
    (query : String) : Except PyErr (ToolResult × ClientState) :=
  perplexityResearchOp validateStatus api st query

/-- The `perplexity_reason` tool wrapper (src/mcp_tools.py, lines
148-162). -/
def toolPerplexityReason (validateStatus : Nat)
    (api : String → List ChatMessage → RawResponse) (st : ClientState)
    (query : String) : Except PyErr (ToolResult × ClientState) :=
  perplexityReasonOp validateStatus api st query

/-- State of N tasks racing through `OpenRouterClient._get_client`
(src/openrouter_client.py, lines 49-57). Each task's program counter:
0 = about to run the `if self._client is None` check; 1 = suspended at
`await self._validate_api_key()` (the null check passed and the validation
network call was issued); 2 = finished. `validations` counts validation
network calls issued. -/
structure RaceState where
  client_slot : Option Conn
  validations : Nat
  pcs : List Nat
deriving DecidableEq

/-- One atomic step of task `t`. The code between suspension points runs
atomically: at pc 0 the task checks the slot and, when it is `None`,
issues the validation call and suspends (pc 1); when the slot is filled it
returns the stored client (pc 2). At pc 1 the task resumes from the await,
creates the `AsyncOpenAI` client and assigns the slot (pc 2). -/
def raceStep (apiKey : String) (s : RaceState) (t : Nat) : RaceState :=
  match s.pcs.get? t with
  | some 0 =>
    match s.client_slot with
    | some _ => { s with pcs := s.pcs.set t 2 }
    | none => { s with validations := s.validations + 1, pcs := s.pcs.set t 1 }
  | some 1 =>
    { s with client_slot := some { base_url := OPENROUTER_BASE_URL, api_key := apiKey },
             pcs := s.pcs.set t 2 }
  | _ => s

/-- Run `nTasks` concurrent first calls to `_get_client` under the given
interleaving (a list of task indices). -/
def runRace (apiKey : String) (nTasks : Nat) (schedule : List Nat) : RaceState :=
  schedule.foldl (raceStep apiKey)
    { client_slot := none, validations := 0, pcs := List.replicate nTasks 0 }

/-- The extraction loop is the filter-then-map of the spec-side
characterisation: kept records are exactly the citation records, in input
order. -/
theorem filterMap_extractCitation (l : List PyVal) :
    l.filterMap extractCitation
      = (l.filter isCitationRecord).map
          (fun ann => ⟨resolvedUrl ann, resolvedTitle ann⟩) := by
  induction l with
  | nil => rfl
  | cons a l ih =>
    cases h : isCitationRecord a <;>
      simp [List.filterMap_cons, List.filter_cons, extractCitation_eq, h, ih]

/-- Claim C1 (amended): for every annotation list, the Citation Extractor
returns exactly one Citation per record whose type discriminant equals
"url_citation" and whose resolved url is non-empty, in the original input
order, with the Citation's title equal to the record's title, falling back
to the url only when the title is absent (a present-but-empty title is
kept); records of any other shape or type yield no Citation, an absent
annotation list yields the empty list, and the extractor is total. -/
theorem claim_C1_amended (content : String) (anns : List PyVal) :
    format_citations content (some anns)
        = (anns.filter isCitationRecord).map
            (fun ann => ⟨resolvedUrl ann, resolvedTitle ann⟩)
      ∧ format_citations content none = [] := by
  refine ⟨?_, rfl⟩
  cases anns with
  | nil => rfl
  | cons a l => simp [format_citations, filterMap_extractCitation]

/-- Claim C1 counterexample: on a citation record whose nested title is
present but empty, the extractor keeps the empty title instead of falling
back to the url, so the claimed fallback "when the title is absent or
empty" fails at this input. -/
theorem claim_C1_counterexample :
    format_citations ""
        (some [PyVal.pydict [("type", PyVal.pystr "url_citation"),
          ("url_citation", PyVal.pydict [("url", PyVal.pystr "https://x.test"),
            ("title", PyVal.pystr "")])]])
      = [⟨PyVal.pystr "https://x.test", PyVal.pystr ""⟩]
    ∧ (PyVal.pystr "" = PyVal.pystr "https://x.test" → False) := by
  refine ⟨rfl, fun h => ?_⟩
  injection h with h2
  exact absurd h2 (by decide)

/-- `PerplexitySearch._query` is `chat_completion` followed by
`_format_citations`, composed into the answer+sources record (failures
propagate unchanged). -/
theorem queryModel_eq_map (v : Nat)
    (api : String → List ChatMessage → RawResponse) (st : ClientState)
    (q model : String) :
    queryModel v api st q model
      = (chat_completion v api st q model none).map (fun p =>
          ({ answer := p.1.content,
             sources := format_citations p.1.content p.1.annotations_val }, p.2)) := by
  unfold queryModel
  cases chat_completion v api st q model none <;> rfl

/-- Claim C6: the four public operations are one-line bindings of the
shared query routine to their fixed model identifiers (the constants
`perplexity/sonar`, `perplexity/sonar-pro`, `perplexity/sonar-deep-research`,
`perplexity/sonar-reasoning-pro`), and the shared routine composes the
answer+sources result from the upstream content and the extracted
citations. -/
theorem claim_C6 (v : Nat) (api : String → List ChatMessage → RawResponse)
    (st : ClientState) (q : String) :
    perplexitySearchOp v api st q = queryModel v api st q "perplexity/sonar"
  ∧ perplexityAskOp v api st q = queryModel v api st q "perplexity/sonar-pro"
  ∧ perplexityResearchOp v api st q
      = queryModel v api st q "perplexity/sonar-deep-research"
  ∧ perplexityReasonOp v api st q
      = queryModel v api st q "perplexity/sonar-reasoning-pro"
  ∧ MODEL_SEARCH = "perplexity/sonar"
  ∧ MODEL_ASK = "perplexity/sonar-pro"
  ∧ MODEL_RESEARCH = "perplexity/sonar-deep-research"
  ∧ MODEL_REASON = "perplexity/sonar-reasoning-pro"
  ∧ (∀ model, queryModel v api st q model
      = (chat_completion v api st q model none).map (fun p =>
          ({ answer := p.1.content,
             sources := format_citations p.1.content p.1.annotations_val }, p.2))) :=
  ⟨rfl, rfl, rfl, rfl, rfl, rfl, rfl, rfl,
    fun model => queryModel_eq_map v api st q model⟩

/-- Claim C7: `close` is idempotent. The first conjunct: the service's
`close` delegates to the client's. Second: a second `close` right after a
first one changes nothing and does not touch the underlying connection.
Third: after any `close` the slot is empty. Fourth: `close` on a
never-opened handle is a no-op. `clientClose` is total, so no call ever
raises. -/
theorem claim_C7 (st : ClientState) :
    searchClose st = clientClose st
  ∧ clientClose (clientClose st).1 = ((clientClose st).1, false)
  ∧ (clientClose st).1.client_slot = none
  ∧ (∀ k : String, clientClose ⟨k, none⟩ = (⟨k, none⟩, false)) := by
  obtain ⟨key, slot⟩ := st
  refine ⟨rfl, ?_, ?_, fun k => rfl⟩ <;> cases slot <;> rfl

/-- Claim C9, exhibited failure: two callers race through first use of
`_get_client`. Both run the `if self._client is None` check before either
resumes from the validation await, so two validation network calls are
issued, contradicting the at-most-once requirement; under the
non-overlapping schedule the count is 1. -/
theorem claim_C9_code_bug :
    (runRace "k" 2 [0, 1, 0, 1]).validations = 2
  ∧ (runRace "k" 2 [0, 1, 0, 1]).pcs = [2, 2]
  ∧ (runRace "k" 2 [0, 0, 1]).validations = 1 :=
  ⟨rfl, rfl, rfl⟩

/-- `"Bearer " ++ t` always passes the scheme-prefix check. -/
theorem pyStartsWith_bearer_append (t : String) :
    pyStartsWith ("Bearer " ++ t) "Bearer " = true := by
  simp [pyStartsWith]

/-- Stripping the 7-character `"Bearer "` scheme prefix recovers the
token. -/
theorem drop_bearer_append (t : String) : ("Bearer " ++ t).drop 7 = t := by
  rw [String.drop_eq, String.data_append,
    @List.drop_left' Char ("Bearer ").data t.data 7 (by decide)]

/-- Claim C2: with a (non-empty) expected bearer token configured, an
absent `authorization` header, a header without the `Bearer ` scheme
prefix, and a header whose token after the prefix differs from the
expected token each make the Bearer Authenticator fail with an
`Unauthorized` `ToolError` (the spec's `AuthenticationError` class); the
error is the same for every `callNext`, so the next stage (and hence the
Query Service) is never invoked. A header that is exactly `Bearer `
followed by the expected token forwards the unchanged context to
`callNext`. -/
theorem claim_C2 {α β : Type} (tok : String) (hTok : tok ≠ "")
    (headers : List (String × String)) (ctx : α)
    (callNext : α → Except ToolFailure β) :
    (headers.lookup "authorization" = none →
      bearerOnCallTool headers (some tok) ctx callNext
        = .error (.toolError "Unauthorized: Missing Bearer token"))
  ∧ (∀ auth, headers.lookup "authorization" = some auth →
      pyStartsWith auth "Bearer " = false →
      bearerOnCallTool headers (some tok) ctx callNext
        = .error (.toolError "Unauthorized: Missing Bearer token"))
  ∧ (∀ auth, headers.lookup "authorization" = some auth →
      pyStartsWith auth "Bearer " = true → auth.drop 7 ≠ tok →
      bearerOnCallTool headers (some tok) ctx callNext
        = .error (.toolError "Unauthorized: Invalid token"))
  ∧ (headers.lookup "authorization" = some ("Bearer " ++ tok) →
      bearerOnCallTool headers (some tok) ctx callNext = callNext ctx)
  ∧ isAuthFailure (.toolError "Unauthorized: Missing Bearer token") = true
  ∧ isAuthFailure (.toolError "Unauthorized: Invalid token") = true := by
  have hie : tok.isEmpty = false := by
    cases h : tok.isEmpty
    · rfl
    · exact absurd ((String.isEmpty_iff tok).1 h) hTok
  have hstr : strTruthy (some tok) = true := by simp [strTruthy, hie]
  have hpf : pyStartsWith "" "Bearer " = false := rfl
  refine ⟨?_, ?_, ?_, ?_, rfl, rfl⟩
  · intro h
    simp [bearerOnCallTool, h, hstr, hpf]
  · intro auth h hps
    simp [bearerOnCallTool, h, hstr, hps]
  · intro auth h hps hne
    simp [bearerOnCallTool, h, hstr, hps, hne]
  · intro h
    simp [bearerOnCallTool, h, hstr, pyStartsWith_bearer_append,
      drop_bearer_append]

/-- Witness for claim C2 at concrete inputs: the exact expected token is
forwarded, an absent header and a wrong token are rejected. -/
theorem claim_C2_witness :
    bearerOnCallTool [("authorization", "Bearer s3cret")] (some "s3cret")
        (0 : Nat) (fun n => (.ok n : Except ToolFailure Nat)) = .ok 0
  ∧ bearerOnCallTool ([] : List (String × String)) (some "s3cret")
        (0 : Nat) (fun n => (.ok n : Except ToolFailure Nat))
      = .error (.toolError "Unauthorized: Missing Bearer token")
  ∧ bearerOnCallTool [("authorization", "Bearer wrong")] (some "s3cret")
        (0 : Nat) (fun n => (.ok n : Except ToolFailure Nat))
      = .error (.toolError "Unauthorized: Invalid token") := by
  refine ⟨?_, ?_, ?_⟩
  · exact (claim_C2 "s3cret" (by decide) [("authorization", "Bearer s3cret")] 0
      (fun n => .ok n)).2.2.2.1 (by decide)
  · exact (claim_C2 "s3cret" (by decide) [] 0 (fun n => .ok n)).1 rfl
  · exact (claim_C2 "s3cret" (by decide) [("authorization", "Bearer wrong")] 0
      (fun n => .ok n)).2.2.1 "Bearer wrong" rfl (by decide) (by decide)

/-- Claim C3 (amended): for an unknown tool name, or for an empty (or
absent) argument mapping, the Argument Sanitizer forwards the message
unchanged; for a known tool and a non-empty argument mapping it forwards
the restriction of the mapping to the keys of the schema's `properties`
dict, each kept key with its original value, in the original order — in
particular, a schema with no `properties` entry restricts to the empty
mapping (it does not pass arguments through unchanged). The sanitizer is
total, hence never raises. -/
theorem claim_C3_amended (tools : List (String × McpTool)) (msg : ToolMsg) :
    (tools.lookup msg.name = none → sanitize tools msg = msg)
  ∧ (∀ tool, tools.lookup msg.name = some tool →
      msg.arguments.getD [] = [] → sanitize tools msg = msg)
  ∧ (∀ tool args, tools.lookup msg.name = some tool →
      msg.arguments = some args → args ≠ [] →
      sanitize tools msg
        = { name := msg.name,
            arguments := some (args.filter (fun kv =>
              (schemaKeys (pyGet (.pydict tool.parameters) "properties"
                (.pydict []))).contains kv.1)) }) := by
  refine ⟨?_, ?_, ?_⟩
  · intro h
    simp [sanitize, h]
  · intro tool h hargs
    simp [sanitize, h, hargs]
  · intro tool args h ha hne
    simp [sanitize, h, ha, hne]

/-- Witness for claim C3 at a concrete input: a tool whose schema declares
only `query` keeps `query` and drops the injected `tool` key with the
kept value unchanged. -/
theorem claim_C3_witness :
    sanitize
        [("perplexity_search",
          ⟨[("properties", PyVal.pydict [("query", PyVal.pydict [])])]⟩)]
        ⟨"perplexity_search",
          some [("query", PyVal.pystr "capital"), ("tool", PyVal.pystr "junk")]⟩
      = ⟨"perplexity_search", some [("query", PyVal.pystr "capital")]⟩ := by
  rw [(claim_C3_amended
      [("perplexity_search",
        ⟨[("properties", PyVal.pydict [("query", PyVal.pydict [])])]⟩)]
      ⟨"perplexity_search",
        some [("query", PyVal.pystr "capital"), ("tool", PyVal.pystr "junk")]⟩).2.2
    _ _ rfl rfl (List.cons_ne_nil _ _)]
  rfl

/-- Claim C3 counterexample: a registered tool whose `parameters` schema
lacks a `properties` entry ("missing schema") does not pass the arguments
through unchanged as claimed: the single argument is dropped and the
forwarded mapping is empty. -/
theorem claim_C3_counterexample :
    sanitize [("perplexity_search", ⟨[]⟩)]
        ⟨"perplexity_search", some [("query", PyVal.pystr "q")]⟩
      = ⟨"perplexity_search", some []⟩
  ∧ ((some ([] : List (String × PyVal))).getD []).length
      ≠ ((some [("query", PyVal.pystr "q")]).getD
          ([] : List (String × PyVal))).length :=
  ⟨rfl, by decide⟩

/-- Claim C4: when no expected bearer token is configured (unset or
empty `MCP_BEARER_TOKEN`), every tool invocation fails with the
`Server misconfigured` `ToolError` (the spec's `ConfigurationError`
class) whatever the `authorization` header holds, and the error is the
same for every `callNext`, so the Query Service is never reached; server
startup itself (which only reads `OPENROUTER_API_KEY`) still succeeds, so
the failure happens at the first call, not at startup. -/
theorem claim_C4 {α β : Type} (env : ServerEnv)
    (hTok : strTruthy env.mcpBearerToken = false)
    (headers : List (String × String)) (ctx : α)
    (callNext : α → Except ToolFailure β) :
    bearerOnCallTool headers env.mcpBearerToken ctx callNext
        = .error (.toolError "Server misconfigured: MCP_BEARER_TOKEN not set")
  ∧ isConfigFailure
      (.toolError "Server misconfigured: MCP_BEARER_TOKEN not set") = true
  ∧ (strTruthy env.openrouterApiKey = true →
      lifespanStartup env
        = .ok { api_key := env.openrouterApiKey.getD "", client_slot := none }) := by
  refine ⟨?_, rfl, ?_⟩
  · simp [bearerOnCallTool, hTok]
  · intro hKey
    have h0 : strTruthy none = false := rfl
    simp [lifespanStartup, clientInit, h0, hKey]

/-- Witness for claim C4 at a concrete environment: bearer token unset,
upstream key present; the call is rejected as misconfigured while startup
succeeds. -/
theorem claim_C4_witness :
    bearerOnCallTool [("authorization", "Bearer whatever")]
        (none : Option String) (0 : Nat)
        (fun n => (.ok n : Except ToolFailure Nat))
      = .error (.toolError "Server misconfigured: MCP_BEARER_TOKEN not set")
  ∧ lifespanStartup ⟨some "k", none⟩
      = .ok { api_key := "k", client_slot := none } := by
  refine ⟨?_, ?_⟩
  · exact (claim_C4 ⟨some "k", none⟩ rfl [("authorization", "Bearer whatever")]
      0 (fun n => .ok n)).1
  · exact (claim_C4 ⟨some "k", none⟩ rfl [] 0
      (fun n => (.ok n : Except ToolFailure Nat))).2.2 rfl

/-- Claim C5 (amended): `chat_completion` builds the message list as the
system message prepended before the user prompt when a non-empty system
prompt is provided (a `None` or empty system prompt contributes no system
message), and — for a handle that already holds a client — returns the
response text (empty string when absent), the model identifier the
upstream reported, the usage total (zero when usage is absent), and the
raw annotations list exactly when the response carries one (`None`
otherwise), leaving the handle state unchanged. -/
theorem claim_C5_amended (api : String → List ChatMessage → RawResponse)
    (st : ClientState) (c : Conn) (hc : st.client_slot = some c)
    (v : Nat) (prompt model : String) (sys : Option String) :
    (∀ p, buildMessages p none = [{ role := "user", content := p }])
  ∧ (∀ p s, s ≠ "" → buildMessages p (some s)
      = [{ role := "system", content := s }, { role := "user", content := p }])
  ∧ (∀ ch rest, (api model (buildMessages prompt sys)).choices = ch :: rest →
      chat_completion v api st prompt model sys
        = .ok ({ content := match ch.message.content with
                            | some txt => txt
                            | none => "",
                 model := (api model (buildMessages prompt sys)).model,
                 tokens := match (api model (buildMessages prompt sys)).usage with
                           | some u => u.total_tokens
                           | none => 0,
                 annotations_val := match ch.message.annotations_attr with
                           | some (some l) => some l
                           | some none => none
                           | none => none }, st)) := by
  refine ⟨fun p => rfl, ?_, ?_⟩
  · intro p s hs
    have hie : s.isEmpty = false := by
      cases h : s.isEmpty
      · rfl
      · exact absurd ((String.isEmpty_iff s).1 h) hs
    simp [buildMessages, strTruthy, hie]
  · intro ch rest hch
    have hg : get_client_step v st = .ok (c, st) := by
      simp [get_client_step, hc]
    simp only [chat_completion, hg, hch, List.head?_cons]
    rcases hco : ch.message.content with _ | txt <;>
      rcases hus : (api model (buildMessages prompt sys)).usage with _ | u <;>
        rcases hat : ch.message.annotations_attr with _ | (_ | l) <;>
          simp [hco, hus, hat]

/-- Witness for claim C5 at a concrete response: content, reported model,
usage total and annotations list are all carried over, and the handle
state is unchanged. -/
theorem claim_C5_witness :
    chat_completion 200
        (fun _ _ =>
          ⟨[⟨⟨some "Paris is the capital.",
              some (some [PyVal.pydict [("type", PyVal.pystr "url_citation")]])⟩⟩],
           "perplexity/sonar-used", some ⟨42⟩⟩)
        ⟨"k", some ⟨OPENROUTER_BASE_URL, "k"⟩⟩ "q" "m" none
      = .ok ({ content := "Paris is the capital.",
               model := "perplexity/sonar-used",
               tokens := 42,
               annotations_val :=
                 some [PyVal.pydict [("type", PyVal.pystr "url_citation")]] },
             ⟨"k", some ⟨OPENROUTER_BASE_URL, "k"⟩⟩)
  ∧ buildMessages "q" (some "be brief")
      = [{ role := "system", content := "be brief" },
         { role := "user", content := "q" }] := by
  refine ⟨?_, ?_⟩
  · exact (claim_C5_amended
      (fun _ _ =>
        ⟨[⟨⟨some "Paris is the capital.",
            some (some [PyVal.pydict [("type", PyVal.pystr "url_citation")]])⟩⟩],
         "perplexity/sonar-used", some ⟨42⟩⟩)
      ⟨"k", some ⟨OPENROUTER_BASE_URL, "k"⟩⟩ ⟨OPENROUTER_BASE_URL, "k"⟩ rfl 200
      "q" "m" none).2.2 _ [] rfl
  · exact (claim_C5_amended (fun _ _ => ⟨[], "m", none⟩)
      ⟨"k", some ⟨OPENROUTER_BASE_URL, "k"⟩⟩ ⟨OPENROUTER_BASE_URL, "k"⟩ rfl 200
      "q" "m" none).2.1 "q" "be brief" (by decide)

/-- Claim C5 counterexample: a present-but-empty system prompt is dropped
by `if system_prompt:`, so the built message list is just the user
message, not the claimed system-then-user list. -/
theorem claim_C5_counterexample :
    buildMessages "q" (some "") = [{ role := "user", content := "q" }]
  ∧ buildMessages "q" (some "")
      ≠ [{ role := "system", content := "" }, { role := "user", content := "q" }] :=
  ⟨rfl, by decide⟩

/-- Claim C8 (amended): `close` returns the handle to the uninitialized
state, so the session holds at most one connection at any time; but a
closed handle is not unusable: the next use validates the key again (a
non-200 answer fails it) and, on success, creates and stores a fresh
connection exactly as on first use. -/
theorem claim_C8_amended (st : ClientState) :
    (clientClose st).1 = { api_key := st.api_key, client_slot := none }
  ∧ (∀ v, v ≠ 200 →
      get_client_step v (clientClose st).1
        = .error (.valueError
            ("Invalid OpenRouter API key (status " ++ toString v ++ ")")))
  ∧ get_client_step 200 (clientClose st).1
      = .ok ({ base_url := OPENROUTER_BASE_URL, api_key := st.api_key },
             { api_key := st.api_key,
               client_slot :=
                 some { base_url := OPENROUTER_BASE_URL, api_key := st.api_key } }) := by
  have h1 : (clientClose st).1 = { api_key := st.api_key, client_slot := none } := by
    obtain ⟨key, slot⟩ := st
    cases slot <;> rfl
  refine ⟨h1, ?_, ?_⟩
  · intro v hv
    rw [h1]
    simp [get_client_step, validate_api_key, hv]
  · rw [h1]
    simp [get_client_step, validate_api_key]

/-- Witness for claim C8 at a concrete closed handle: after `close`, the
next `_get_client` validates again (failing on a 500) and succeeds on a
200 with a fresh connection. -/
theorem claim_C8_witness :
    get_client_step 500 (clientClose ⟨"k", some ⟨"old", "k"⟩⟩).1
      = .error (.valueError
          ("Invalid OpenRouter API key (status " ++ toString 500 ++ ")"))
  ∧ get_client_step 200 (clientClose ⟨"k", some ⟨"old", "k"⟩⟩).1
      = .ok (⟨OPENROUTER_BASE_URL, "k"⟩, ⟨"k", some ⟨OPENROUTER_BASE_URL, "k"⟩⟩) :=
  ⟨(claim_C8_amended ⟨"k", some ⟨"old", "k"⟩⟩).2.1 500 (by decide),
   (claim_C8_amended ⟨"k", some ⟨"old", "k"⟩⟩).2.2⟩

/-- Claim C8 counterexample: a handle that held a connection is closed,
and a subsequent `chat_completion` on the same handle proceeds: it
validates again and creates and uses a fresh connection (distinct from the
closed one), contradicting "once closed, unusable". -/
theorem claim_C8_counterexample :
    (clientClose ⟨"k", some ⟨"old", "k"⟩⟩).1 = ⟨"k", none⟩
  ∧ chat_completion 200 (fun _ _ => ⟨[⟨⟨some "ans", none⟩⟩], "m", none⟩)
        (clientClose ⟨"k", some ⟨"old", "k"⟩⟩).1 "q" "m" none
      = .ok (⟨"ans", "m", 0, none⟩, ⟨"k", some ⟨OPENROUTER_BASE_URL, "k"⟩⟩)
  ∧ (⟨OPENROUTER_BASE_URL, "k"⟩ : Conn) ≠ ⟨"old", "k"⟩ :=
  ⟨rfl, rfl, by decide⟩

/-- Claim C10: each tool wrapper returns the Query Service's structured
answer+sources record unchanged, and on success the answer field is
exactly the upstream content — no markdown-formatted sources list is
appended to it. -/
theorem claim_C10 (v : Nat) (api : String → List ChatMessage → RawResponse)
    (st : ClientState) (q : String) :
    toolPerplexitySearch v api st q = perplexitySearchOp v api st q
  ∧ toolPerplexityAsk v api st q = perplexityAskOp v api st q
  ∧ toolPerplexityResearch v api st q = perplexityResearchOp v api st q
  ∧ toolPerplexityReason v api st q = perplexityReasonOp v api st q
  ∧ (∀ model r st2, chat_completion v api st q model none = .ok (r, st2) →
      queryModel v api st q model
        = .ok ({ answer := r.content,
                 sources := format_citations r.content r.annotations_val }, st2)) := by
  refine ⟨rfl, rfl, rfl, rfl, ?_⟩
  intro model r st2 h
  rw [queryModel_eq_map, h]
  rfl

/-- Witness for claim C10 at a concrete upstream response with no
annotations: the returned record is the bare answer with an empty sources
list, nothing appended. -/
theorem claim_C10_witness :
    queryModel 200 (fun _ _ => ⟨[⟨⟨some "Paris is the capital.", none⟩⟩], "m", none⟩)
        ⟨"k", some ⟨OPENROUTER_BASE_URL, "k"⟩⟩ "q" MODEL_SEARCH
      = .ok ({ answer := "Paris is the capital.", sources := [] },
             ⟨"k", some ⟨OPENROUTER_BASE_URL, "k"⟩⟩) := by
  exact (claim_C10 200 (fun _ _ => ⟨[⟨⟨some "Paris is the capital.", none⟩⟩], "m", none⟩)
    ⟨"k", some ⟨OPENROUTER_BASE_URL, "k"⟩⟩ "q").2.2.2.2 MODEL_SEARCH _ _ rfl
